import Mathlib

/-!
Verification development for the `rated-feeder` repository.

Shallow embedding of the OIS pipeline: `python_modules/boe_ois_fetcher.py`
(tenor column locator, rate series extractor, change computer, plain-text
formatter), `python_modules/email_sender.py` (HTML formatter) and
`ois_daily_agent.py` (run control flow).

Modelling conventions: worksheet cell values (as seen through openpyxl's
`values_only=True`) are the tagged variant `Cell`; Python `float` rates are
modelled as `ℚ`; Python `None` as `Option.none`; Python `datetime` values as
`PyDateTime`; raised exceptions as `Except String`.
-/

/-- A Python `datetime` as produced by `openpyxl` for date cells:
calendar fields, compared chronologically. -/
structure PyDateTime where
  year : ℕ
  month : ℕ
  day : ℕ
  hour : ℕ := 0
  minute : ℕ := 0
  second : ℕ := 0
deriving DecidableEq

/-- Chronological sort key: lexicographic over the calendar fields, which is
Python `datetime` ordering for in-range field values. -/
def PyDateTime.key (d : PyDateTime) : ℕ :=
  ((((d.year * 13 + d.month) * 32 + d.day) * 24 + d.hour) * 60 + d.minute) * 60 + d.second

/-- A worksheet cell value: a number, a date, an empty cell (Python `None`)
or text. -/
inductive Cell where
  | num (q : ℚ)
  | date (d : PyDateTime)
  | blank
  | text (s : String)
deriving DecidableEq

/-- Python numeric equality `value == n` for a cell: true only for a numeric
cell with exactly that value (dates, blanks and text never equal a number). -/
def cellEqNum (c : Cell) (n : ℚ) : Bool :=
  match c with
  | .num q => decide (q = n)
  | _ => false

/-- Cell of `row` at index `i` (`row[i]`; openpyxl `values_only` rows are
padded to the sheet width, so in-range indices are total). -/
def cellAt (row : List Cell) (i : ℕ) : Cell :=
  row.getD i .blank

/-- One step of the header scan: the `if/elif` chain of
`_parse_ois_sheet` lines 76-81, overwriting the matching tenor slot with the
current column index. -/
def locStep (acc : Option ℕ × Option ℕ × Option ℕ) (idx : ℕ) (c : Cell) :
    Option ℕ × Option ℕ × Option ℕ :=
  if cellEqNum c 2 then (some idx, acc.2.1, acc.2.2)
  else if cellEqNum c 5 then (acc.1, some idx, acc.2.2)
  else if cellEqNum c 10 then (acc.1, acc.2.1, some idx)
  else acc

/-- The loop `for idx, value in enumerate(maturity_row)` of
`_parse_ois_sheet` lines 75-81, threading the three column accumulators. -/
def locAux (idx : ℕ) (acc : Option ℕ × Option ℕ × Option ℕ) :
    List Cell → Option ℕ × Option ℕ × Option ℕ
  | [] => acc
  | c :: cs => locAux (idx + 1) (locStep acc idx c) cs

/-- The Tenor Column Locator: scan of the maturity header row yielding
`(col_2yr, col_5yr, col_10yr)` of `_parse_ois_sheet`. -/
def locateCols (row : List Cell) : Option ℕ × Option ℕ × Option ℕ :=
  locAux 0 (none, none, none) row

/-- One collected observation (`data_rows` entry of `_parse_ois_sheet`
lines 91-96): the date from the first cell, and the raw values of the three
resolved rate columns (`None` for an empty cell). -/
structure ObservationRow where
  date : PyDateTime
  rate_2yr : Option ℚ
  rate_5yr : Option ℚ
  rate_10yr : Option ℚ
deriving DecidableEq

/-- Value of a rate cell as stored in an observation: a numeric cell passes
through unchanged, an empty cell is Python `None`.  (In the source format
rate columns hold numbers or blanks.) -/
def cellValue : Cell → Option ℚ
  | .num q => some q
  | _ => none

/-- `isinstance(date_val, datetime)` on the first cell of a row. -/
def isDateCell : Option Cell → Bool
  | some (.date _) => true
  | _ => false

/-- Build the observation record of `_parse_ois_sheet` lines 91-96 from a
qualifying row. -/
def mkObservation (c2 c5 c10 : ℕ) (d : PyDateTime) (row : List Cell) :
    ObservationRow :=
  { date := d
    rate_2yr := cellValue (cellAt row c2)
    rate_5yr := cellValue (cellAt row c5)
    rate_10yr := cellValue (cellAt row c10) }

/-- The Rate Series Extractor (`_parse_ois_sheet` lines 87-96): keep exactly
the rows whose first cell is a date, extracting the three resolved columns. -/
def extractObservations (c2 c5 c10 : ℕ) (dataRows : List (List Cell)) :
    List ObservationRow :=
  dataRows.filterMap fun row =>
    match row.head? with
    | some (.date d) => some (mkObservation c2 c5 c10 d row)
    | _ => none

/-- The ordering used by `data_rows.sort(key=lambda x: x['date'], reverse=True)`:
`a` may come before `b` when `b`'s date is not later than `a`'s. -/
def obsGE (a b : ObservationRow) : Prop :=
  b.date.key ≤ a.date.key

instance : DecidableRel obsGE :=
  fun a b => inferInstanceAs (Decidable (b.date.key ≤ a.date.key))

instance : IsTotal ObservationRow obsGE :=
  ⟨fun a b => Nat.le_total b.date.key a.date.key⟩

instance : IsTrans ObservationRow obsGE :=
  ⟨fun _ _ _ hab hbc => le_trans hbc hab⟩

/-- `data_rows.sort(key=lambda x: x['date'], reverse=True)` (line 99):
a stable sort, descending by date; Python's stable sort with `reverse=True`
keeps equal-dated rows in original row order, exactly as a stable insertion
sort with this non-strict ordering does. -/
def sortByDateDesc (l : List ObservationRow) : List ObservationRow :=
  List.insertionSort obsGE l

/-- Subtraction on `ℚ`, written through the smart constructor `mkRat` so
that concrete runs reduce inside the kernel; `ratSub_eq_sub` proves it equal
to `Sub.sub` (whose library implementation is marked irreducible). -/
def ratSub (a b : ℚ) : ℚ :=
  mkRat (a.num * b.den - b.num * a.den) (a.den * b.den)

/-- Multiplication on `ℚ` through `mkRat`; `ratMul_eq_mul` proves it equal
to `Mul.mul`. -/
def ratMul (a b : ℚ) : ℚ :=
  mkRat (a.num * b.num) (a.den * b.den)

/-- Absolute value on `ℚ` by sign test; `ratAbs_eq_abs` proves it equal to
`abs`. -/
def ratAbs (q : ℚ) : ℚ :=
  if q < 0 then Rat.neg q else q

/-- `calculate_change` (lines 108-111): basis-point change
`(latest_rate - prev_rate) * 100`, absent when either rate is absent. -/
def calculate_change : Option ℚ → Option ℚ → Option ℚ
  | some l, some p => some (ratMul (ratSub l p) 100)
  | _, _ => none

/-- The per-tenor entry of the result dictionary (lines 117-131). -/
structure RateComparison where
  current : Option ℚ
  previous : Option ℚ
  change_bps : Option ℚ
deriving DecidableEq

/-- The result dictionary of `_parse_ois_sheet` (lines 113-133); the `rates`
dict with its three fixed keys becomes three fields. -/
structure OisResult where
  latest_date : PyDateTime
  previous_date : PyDateTime
  rates_2yr : RateComparison
  rates_5yr : RateComparison
  rates_10yr : RateComparison
deriving DecidableEq

/-- Lines 113-133: build the result from the two most recent observations. -/
def buildResult (latest previous : ObservationRow) : OisResult :=
  { latest_date := latest.date
    previous_date := previous.date
    rates_2yr := ⟨latest.rate_2yr, previous.rate_2yr,
      calculate_change latest.rate_2yr previous.rate_2yr⟩
    rates_5yr := ⟨latest.rate_5yr, previous.rate_5yr,
      calculate_change latest.rate_5yr previous.rate_5yr⟩
    rates_10yr := ⟨latest.rate_10yr, previous.rate_10yr,
      calculate_change latest.rate_10yr previous.rate_10yr⟩ }

/-- Message of the `ValueError` raised at line 84. -/
def columnErrorMsg : String := "Could not find 2yr, 5yr, or 10yr columns"

/-- Message of the `ValueError` raised at line 102. -/
def insufficientErrorMsg : String := "Insufficient data to calculate changes"

/-- `_parse_ois_sheet` (lines 60-135) on the decoded maturity header row
(sheet row 4) and data rows (sheet rows 6+); `raise ValueError` becomes
`Except.error`. -/
def parse_ois_sheet (maturityRow : List Cell) (dataRows : List (List Cell)) :
    Except String OisResult :=
  match locateCols maturityRow with
  | (some c2, some c5, some c10) =>
    match sortByDateDesc (extractObservations c2 c5 c10 dataRows) with
    | latest :: previous :: _ => .ok (buildResult latest previous)
    | _ => .error insufficientErrorMsg
  | _ => .error columnErrorMsg

/-- Floor of a rational (`⌊q⌋`), computed directly on the numerator and
denominator. -/
def ratFloor (q : ℚ) : ℤ :=
  Int.fdiv q.num (q.den : ℤ)

/-- Round to the nearest integer, ties to even: the rounding applied by
Python fixed-point float formatting.  (Rationals stand in for floats; the
claims under proof never sit on a rounding boundary.) -/
def roundHalfEven (q : ℚ) : ℤ :=
  let fl := ratFloor q
  if ratSub q (Rat.ofInt fl) < mkRat 1 2 then fl
  else if mkRat 1 2 < ratSub q (Rat.ofInt fl) then fl + 1
  else if fl % 2 = 0 then fl else fl + 1

/-- Decimal digits of `n`, left-padded with zeros to width `w`. -/
def natPadZeros (w : ℕ) (n : ℕ) : String :=
  let s := toString n
  String.mk (List.replicate (w - s.length) '0') ++ s

/-- Python `format(q, ".{prec}f")`, with an optional forced leading sign
(the `+` flag), on a rational standing in for a float. -/
def fmtFixed (plus : Bool) (prec : ℕ) (q : ℚ) : String :=
  let m := (roundHalfEven (ratMul (ratAbs q) (mkRat (Int.ofNat (10 ^ prec)) 1))).toNat
  let sign := if q < 0 then "-" else if plus then "+" else ""
  sign ++ toString (m / 10 ^ prec) ++ "." ++ natPadZeros prec (m % 10 ^ prec)

/-- Right-align to width `w` with spaces (the `>` alignment of a format
specifier). -/
def padLeftSpaces (w : ℕ) (s : String) : String :=
  String.mk (List.replicate (w - s.length) ' ') ++ s

/-- Full month name for `strftime("%B")`. -/
def monthName : ℕ → String
  | 1 => "January"
  | 2 => "February"
  | 3 => "March"
  | 4 => "April"
  | 5 => "May"
  | 6 => "June"
  | 7 => "July"
  | 8 => "August"
  | 9 => "September"
  | 10 => "October"
  | 11 => "November"
  | 12 => "December"
  | _ => ""

/-- `strftime("%d %B %Y")` (dates in the summary and email headers). -/
def strftimeDMY (d : PyDateTime) : String :=
  natPadZeros 2 d.day ++ " " ++ monthName d.month ++ " " ++ toString d.year

/-- `strftime("%d %B %Y %H:%M:%S")` (the `Fetched at` footer line). -/
def strftimeFull (d : PyDateTime) : String :=
  strftimeDMY d ++ " " ++ natPadZeros 2 d.hour ++ ":" ++ natPadZeros 2 d.minute
    ++ ":" ++ natPadZeros 2 d.second

/-- Message of the `TypeError` Python raises when a numeric format specifier
is applied to `None`. -/
def typeErrorMsg : String :=
  "TypeError: unsupported format string passed to NoneType.__format__"

/-- Apply a numeric format specifier to an optional rate value: Python
raises `TypeError` when the value is `None`. -/
def fmtOpt (f : ℚ → String) : Option ℚ → Except String String
  | none => .error typeErrorMsg
  | some q => .ok (f q)

/-- `format_summary` line 155:
`f"{change:+.2f} bps" if change is not None else "N/A"`. -/
def change_str : Option ℚ → String
  | some c => fmtFixed true 2 c ++ " bps"
  | none => "N/A"

/-- `format_summary` line 156:
`"↑" if change and change > 0 else "↓" if change and change < 0 else "→"`
(`change` is falsy when `None` or zero, so a zero change falls through to
the neutral arrow, as does an absent one). -/
def arrowOf : Option ℚ → String
  | some c => if 0 < c then "↑" else if c < 0 then "↓" else "→"
  | none => "→"

/-- `'='*50`. -/
def eqLine : String := String.mk (List.replicate 50 '=')

/-- One summary line (`format_summary` line 158): the
`{current:>6.3f}` and `{previous:>6.3f}` specifiers raise `TypeError` on an
absent rate, in that order. -/
def summaryLine (tenor : String) (v : RateComparison) : Except String String := do
  let cur ← fmtOpt (fun q => padLeftSpaces 6 (fmtFixed false 3 q)) v.current
  let prev ← fmtOpt (fun q => padLeftSpaces 6 (fmtFixed false 3 q)) v.previous
  pure (padLeftSpaces 4 tenor ++ " Rate: " ++ cur ++ "% (was " ++ prev ++ "%) "
    ++ arrowOf v.change_bps ++ " " ++ change_str v.change_bps ++ "\n")

/-- `format_summary` (lines 137-164).  The call to `datetime.now()` in the
`Fetched at` footer is modelled by the explicit `now` argument. -/
def format_summary (data : OisResult) (now : PyDateTime) : Except String String := do
  let l2 ← summaryLine "2yr" data.rates_2yr
  let l5 ← summaryLine "5yr" data.rates_5yr
  let l10 ← summaryLine "10yr" data.rates_10yr
  pure ("Bank of England OIS Rates Summary\n" ++ eqLine ++ "\n\n"
    ++ "Latest Data: " ++ strftimeDMY data.latest_date ++ "\n"
    ++ "Previous Data: " ++ strftimeDMY data.previous_date ++ "\n\n"
    ++ l2 ++ l5 ++ l10
    ++ "\n" ++ eqLine ++ "\n"
    ++ "Data source: Bank of England\n"
    ++ "Fetched at: " ++ strftimeFull now ++ "\n")

/-- `create_ois_html_email` lines 211-224: CSS class and display string for
the change cell.  The arrow mirrors the three-way comparison and the number
shown is the absolute value of the change (`f"{arrow} {abs(change):.2f}"`);
an absent change renders as `N/A` with the neutral class. -/
def htmlChangeCell : Option ℚ → String × String
  | some c =>
    if 0 < c then ("positive", "↑ " ++ fmtFixed false 2 (ratAbs c))
    else if c < 0 then ("negative", "↓ " ++ fmtFixed false 2 (ratAbs c))
    else ("neutral", "→ " ++ fmtFixed false 2 (ratAbs c))
  | none => ("neutral", "N/A")

/-- The static head of the HTML document (lines 114-204), with the two date
interpolations as arguments; `\x7b`/`\x7d` are the literal CSS braces
(`{{`/`}}` in the Python f-string). -/
def htmlHead (latestDate previousDate : String) : String :=
  "\n<!DOCTYPE html>\n<html>\n<head>\n    <style>\n        body \x7b\n            font-family: Arial, sans-serif;\n            line-height: 1.6;\n            color: #333;\n            max-width: 600px;\n            margin: 0 auto;\n            padding: 20px;\n        \x7d\n        .header \x7b\n            background-color: #002147;\n            color: white;\n            padding: 20px;\n            text-align: center;\n            border-radius: 5px 5px 0 0;\n        \x7d\n        .content \x7b\n            background-color: #f4f4f4;\n            padding: 20px;\n        \x7d\n        .rate-table \x7b\n            width: 100%;\n            border-collapse: collapse;\n            margin: 20px 0;\n            background-color: white;\n        \x7d\n        .rate-table th \x7b\n            background-color: #002147;\n            color: white;\n            padding: 12px;\n            text-align: left;\n        \x7d\n        .rate-table td \x7b\n            padding: 12px;\n            border-bottom: 1px solid #ddd;\n        \x7d\n        .rate-table tr:hover \x7b\n            background-color: #f5f5f5;\n        \x7d\n        .positive \x7b\n            color: #28a745;\n            font-weight: bold;\n        \x7d\n        .negative \x7b\n            color: #dc3545;\n            font-weight: bold;\n        \x7d\n        .neutral \x7b\n            color: #6c757d;\n            font-weight: bold;\n        \x7d\n        .footer \x7b\n            text-align: center;\n            padding: 20px;\n            font-size: 12px;\n            color: #666;\n        \x7d\n        .date-info \x7b\n            background-color: white;\n            padding: 15px;\n            margin: 10px 0;\n            border-left: 4px solid #002147;\n        \x7d\n    </style>\n</head>\n<body>\n    <div class=\"header\">\n        <h1>Bank of England OIS Rates</h1>\n        <p>Daily Summary</p>\n    </div>\n    <div class=\"content\">\n        <div class=\"date-info\">\n            <strong>Latest Data:</strong> "
    ++ latestDate
    ++ "<br>\n            <strong>Previous Data:</strong> "
    ++ previousDate
    ++ "\n        </div>\n\n        <table class=\"rate-table\">\n            <thead>\n                <tr>\n                    <th>Tenor</th>\n                    <th>Current Rate</th>\n                    <th>Previous Rate</th>\n                    <th>Change (bps)</th>\n                </tr>\n            </thead>\n            <tbody>\n"

/-- The static tail of the HTML document (lines 235-245). -/
def htmlFoot : String :=
  "\n            </tbody>\n        </table>\n    </div>\n    <div class=\"footer\">\n        <p>Data source: Bank of England</p>\n        <p>This is an automated daily summary of OIS rates.</p>\n    </div>\n</body>\n</html>\n"

/-- One table row (lines 226-233): the `{current:.3f}` and
`{previous:.3f}` specifiers raise `TypeError` on an absent rate. -/
def htmlRow (tenor : String) (v : RateComparison) : Except String String := do
  let cell := htmlChangeCell v.change_bps
  let cur ← fmtOpt (fmtFixed false 3) v.current
  let prev ← fmtOpt (fmtFixed false 3) v.previous
  pure ("\n                <tr>\n                    <td><strong>" ++ tenor
    ++ "</strong></td>\n                    <td>" ++ cur
    ++ "%</td>\n                    <td>" ++ prev
    ++ "%</td>\n                    <td class=\"" ++ cell.1 ++ "\">" ++ cell.2
    ++ "</td>\n                </tr>\n")

/-- `create_ois_html_email` (lines 101-246). -/
def create_ois_html_email (data : OisResult) : Except String String := do
  let r2 ← htmlRow "2yr" data.rates_2yr
  let r5 ← htmlRow "5yr" data.rates_5yr
  let r10 ← htmlRow "10yr" data.rates_10yr
  pure (htmlHead (strftimeDMY data.latest_date) (strftimeDMY data.previous_date)
    ++ r2 ++ r5 ++ r10 ++ htmlFoot)

/-- Observable outcome of one agent run: the process exit status and the
number of calls made to `EmailSender.send_email`. -/
structure RunOutcome where
  exitCode : ℕ
  notifyAttempts : ℕ
deriving DecidableEq

/-- `main` of `ois_daily_agent.py` (lines 20-77): control flow from the
fetch outcome to the exit status and the number of notification attempts.
External inputs are made explicit: the `(data, error)` pair returned by
`fetch_ois_data`, the SMTP user and recipient configuration strings (empty
string is Python-falsy), the clock reading used by `format_summary`, and
whether `send_email` reports success.  An uncaught formatter `TypeError`
terminates the interpreter with a non-zero status. -/
def agentMain (fetchResult : Option OisResult × Option String)
    (smtpUser toEmail : String) (now : PyDateTime) (sendSucceeds : Bool) :
    RunOutcome :=
  match fetchResult with
  | (_, some _) => ⟨1, 0⟩
  | (none, none) => ⟨1, 0⟩
  | (some data, none) =>
    match format_summary data now with
    | .error _ => ⟨1, 0⟩
    | .ok _ =>
      if smtpUser = "" || toEmail = "" then ⟨0, 0⟩
      else
        match create_ois_html_email data with
        | .error _ => ⟨1, 0⟩
        | .ok _ => if sendSucceeds then ⟨0, 1⟩ else ⟨1, 1⟩

/-- Does `pat` occur as a contiguous subsequence of the character list? -/
def containsSeq (pat : List Char) : List Char → Bool
  | [] => pat.isEmpty
  | l@(_ :: cs) => pat.isPrefixOf l || containsSeq pat cs

/-- Substring test (`needle in haystack` on Python strings). -/
def strContains (s pat : String) : Bool :=
  containsSeq pat.toList s.toList

/-- Auxiliary right-recursive characterization of the last matching index
for one target value, scanning cells `cs` whose first cell has column index
`idx`; a later match takes precedence over an earlier one. -/
def lastFrom (t : ℚ) : List Cell → ℕ → Option ℕ
  | [], _ => none
  | c :: cs, idx =>
    match lastFrom t cs (idx + 1) with
    | some j => some j
    | none => if cellEqNum c t then some idx else none

/-- The spec's wording (4.1), for comparison with the locator: the index of
the last column of the header row whose cell equals the target maturity. -/
def lastMatchIdx (row : List Cell) (t : ℚ) : Option ℕ :=
  ((row.enum.filter fun p => cellEqNum p.2 t).map Prod.fst).getLast?

/-- The spec's wording (C2), for comparison: the header row has exactly one
cell equal to the target `t`, at index `i`. -/
def uniqueMatchAt (row : List Cell) (t : ℚ) (i : ℕ) : Prop :=
  i < row.length ∧ cellEqNum (cellAt row i) t = true
    ∧ ∀ j, j < row.length → cellEqNum (cellAt row j) t = true → j = i

/-- The spec's wording (C2), for comparison: a failure message "names the
specific target(s) that were unresolved" when it mentions a tenor exactly
when that tenor's column is unresolved. -/
def msgNamesExactlyUnresolved (msg : String)
    (cols : Option ℕ × Option ℕ × Option ℕ) : Prop :=
  (strContains msg "2yr" = true ↔ cols.1 = none)
    ∧ (strContains msg "5yr" = true ↔ cols.2.1 = none)
    ∧ (strContains msg "10yr" = true ↔ cols.2.2 = none)

/-- The spec's wording (C3), for comparison: the maximum observation date
key. -/
def specLatestKey (obs : List ObservationRow) : ℕ :=
  (obs.map fun o => o.date.key).foldr max 0

/-- The spec's wording (C3), for comparison: the second-maximum observation
date key — the maximum after removing one occurrence of the maximum. -/
def specPreviousKey (obs : List ObservationRow) : ℕ :=
  ((obs.map fun o => o.date.key).erase (specLatestKey obs)).foldr max 0

/-- Date carried by a date cell (placeholder epoch on any other cell,
reached only off the date-row filter). -/
def dateOf : Cell → PyDateTime
  | .date d => d
  | _ => ⟨0, 0, 0, 0, 0, 0⟩

/-- The observation built from a (date-headed) row. -/
def obsOfRow (c2 c5 c10 : ℕ) (row : List Cell) : ObservationRow :=
  mkObservation c2 c5 c10 (dateOf (row.headD .blank)) row

/-- The payload of an `Except`-valued formatter result (the rendered string
on success, the exception message on failure). -/
def exceptOut : Except String String → String
  | .ok s => s
  | .error e => e

instance {e a : Type} [DecidableEq e] [DecidableEq a] : DecidableEq (Except e a) :=
  fun x y =>
    match x, y with
    | .ok v, .ok w =>
      if h : v = w then isTrue (by rw [h]) else isFalse (by intro hc; cases hc; exact h rfl)
    | .error v, .error w =>
      if h : v = w then isTrue (by rw [h]) else isFalse (by intro hc; cases hc; exact h rfl)
    | .ok _, .error _ => isFalse (by intro hc; cases hc)
    | .error _, .ok _ => isFalse (by intro hc; cases hc)

instance (row : List Cell) (t : ℚ) (i : ℕ) : Decidable (uniqueMatchAt row t i) :=
  inferInstanceAs (Decidable (_ ∧ _ ∧ ∀ j, j < row.length →
    cellEqNum (cellAt row j) t = true → j = i))

/-- Sample date 10 June 2024 (midnight). -/
def sampleD1 : PyDateTime := ⟨2024, 6, 10, 0, 0, 0⟩

/-- Sample date 7 June 2024 (midnight). -/
def sampleD2 : PyDateTime := ⟨2024, 6, 7, 0, 0, 0⟩

/-- Sample maturity header row: columns 1-5 hold 0.5, 1, 2, 5, 10. -/
def sampleHeader : List Cell :=
  [Cell.text "years:", Cell.num (mkRat 1 2), Cell.num 1, Cell.num 2,
    Cell.num 5, Cell.num 10]

/-- Sample data rows: two dated observations (given oldest first) and one
footnote row. -/
def sampleRows : List (List Cell) :=
  [[Cell.date sampleD2, Cell.blank, Cell.num 1, Cell.num (mkRat 17 4),
      Cell.num 4, Cell.num (mkRat 37 10)],
   [Cell.date sampleD1, Cell.blank, Cell.num 1, Cell.num (mkRat 9 2),
      Cell.num (mkRat 41 10), Cell.num (mkRat 19 5)],
   [Cell.text "note", Cell.blank, Cell.blank, Cell.blank, Cell.blank,
      Cell.blank]]

/-- Sample snapshot with all rates present. -/
def sampleSnapshot : OisResult :=
  { latest_date := sampleD1
    previous_date := sampleD2
    rates_2yr := ⟨some (mkRat 9 2), some (mkRat 17 4), some 25⟩
    rates_5yr := ⟨some (mkRat 41 10), some 4, some 10⟩
    rates_10yr := ⟨some (mkRat 19 5), some (mkRat 37 10), some 10⟩ }

/-- Sample snapshot whose 5yr previous rate is absent (its change is absent
accordingly). -/
def sampleSnapshotAbsent : OisResult :=
  { latest_date := sampleD1
    previous_date := sampleD2
    rates_2yr := ⟨some (mkRat 9 2), some (mkRat 17 4), some 25⟩
    rates_5yr := ⟨some (mkRat 41 10), none, none⟩
    rates_10yr := ⟨some (mkRat 19 5), some (mkRat 37 10), some 10⟩ }

theorem ratSub_eq_sub (a b : ℚ) : ratSub a b = a - b :=
  (Rat.sub_def' a b).symm

theorem ratMul_eq_mul (a b : ℚ) : ratMul a b = a * b := by
  rw [ratMul, ← Rat.normalize_eq_mkRat (Nat.mul_ne_zero a.den_nz b.den_nz),
    ← Rat.mul_def]

theorem ratAbs_eq_abs (q : ℚ) : ratAbs q = |q| := by
  rw [ratAbs]
  split
  · exact (abs_of_neg (by assumption)).symm
  · exact (abs_of_nonneg (not_lt.mp (by assumption))).symm

/-- C1: for any pair of most-recent observations and each tenor, the
computed `change_bps` equals `(latestRate - previousRate) * 100` when both
rate values are present, and is absent (`none`, not zero, no exception)
when either one is absent. -/
theorem calculate_change_spec (latest previous : ObservationRow) :
    ((∀ a b, latest.rate_2yr = some a → previous.rate_2yr = some b →
        (buildResult latest previous).rates_2yr.change_bps = some ((a - b) * 100))
      ∧ (latest.rate_2yr = none ∨ previous.rate_2yr = none →
        (buildResult latest previous).rates_2yr.change_bps = none))
    ∧ ((∀ a b, latest.rate_5yr = some a → previous.rate_5yr = some b →
        (buildResult latest previous).rates_5yr.change_bps = some ((a - b) * 100))
      ∧ (latest.rate_5yr = none ∨ previous.rate_5yr = none →
        (buildResult latest previous).rates_5yr.change_bps = none))
    ∧ ((∀ a b, latest.rate_10yr = some a → previous.rate_10yr = some b →
        (buildResult latest previous).rates_10yr.change_bps = some ((a - b) * 100))
      ∧ (latest.rate_10yr = none ∨ previous.rate_10yr = none →
        (buildResult latest previous).rates_10yr.change_bps = none)) := by
  refine ⟨⟨?_, ?_⟩, ⟨?_, ?_⟩, ⟨?_, ?_⟩⟩ <;>
    first
    | · intro a b h1 h2
        simp [buildResult, calculate_change, h1, h2, ratSub_eq_sub, ratMul_eq_mul]
    | · rintro (h | h)
        · simp [buildResult, calculate_change, h]
        · rcases hl : latest.rate_2yr with _ | a <;>
            rcases hl5 : latest.rate_5yr with _ | a5 <;>
            rcases hl10 : latest.rate_10yr with _ | a10 <;>
            simp [buildResult, calculate_change, h, hl, hl5, hl10]

/-- Latest observation used by witnesses (10 June 2024; 10yr rate absent). -/
def obsLatest : ObservationRow :=
  ⟨sampleD1, some (mkRat 9 2), some (mkRat 41 10), none⟩

/-- Previous observation used by witnesses (7 June 2024; 5yr rate absent). -/
def obsPrevious : ObservationRow :=
  ⟨sampleD2, some (mkRat 17 4), none, some (mkRat 37 10)⟩

theorem calculate_change_spec_witness :
    (buildResult obsLatest obsPrevious).rates_2yr.change_bps
        = some ((mkRat 9 2 - mkRat 17 4) * 100)
      ∧ (buildResult obsLatest obsPrevious).rates_5yr.change_bps = none :=
  ⟨(calculate_change_spec obsLatest obsPrevious).1.1 _ _ rfl rfl,
    (calculate_change_spec obsLatest obsPrevious).2.1.2 (Or.inr rfl)⟩

/-- C9: for current = 4.500 and previous = 4.250 the computed change is
25.00 basis points, within tolerance 1e-9. -/
theorem change_scaling_value :
    ∃ c : ℚ, calculate_change (some 4.5) (some 4.25) = some c
      ∧ |c - 25| ≤ 1/1000000000 := by
  refine ⟨(4.5 - 4.25) * 100, ?_, by norm_num⟩
  simp [calculate_change, ratSub_eq_sub, ratMul_eq_mul]

/-- C7: the rendered indicator is the up arrow exactly when the change is
positive, the down arrow exactly when negative, and the neutral arrow when
zero or absent; an absent change renders "N/A" with the neutral class in
both formatter variants, and the HTML cell uses the same three-way
comparison for its class while displaying the absolute value of the change
next to the indicator. -/
theorem indicator_policy (chg : Option ℚ) :
    (∀ c, chg = some c →
      ((0 < c → arrowOf chg = "↑" ∧ (htmlChangeCell chg).1 = "positive")
        ∧ (c < 0 → arrowOf chg = "↓" ∧ (htmlChangeCell chg).1 = "negative")
        ∧ (c = 0 → arrowOf chg = "→" ∧ (htmlChangeCell chg).1 = "neutral")
        ∧ (htmlChangeCell chg).2 = arrowOf chg ++ " " ++ fmtFixed false 2 |c|))
    ∧ (chg = none → arrowOf chg = "→" ∧ change_str chg = "N/A"
        ∧ htmlChangeCell chg = ("neutral", "N/A")) := by
  constructor
  · rintro c rfl
    refine ⟨?_, ?_, ?_, ?_⟩
    · intro h
      simp [arrowOf, htmlChangeCell, h]
    · intro h
      simp [arrowOf, htmlChangeCell, h, asymm h]
    · rintro rfl
      simp [arrowOf, htmlChangeCell]
    · rw [← ratAbs_eq_abs]
      rcases lt_trichotomy c 0 with h | h | h
      · simp only [arrowOf, htmlChangeCell, if_pos h, if_neg (asymm h)]
        congr 1
      · subst h
        simp only [arrowOf, htmlChangeCell, lt_self_iff_false, if_false]
        congr 1
      · simp only [arrowOf, htmlChangeCell, if_pos h]
        congr 1
  · rintro rfl
    exact ⟨rfl, rfl, rfl⟩

theorem indicator_policy_witness :
    arrowOf (some 3) = "↑" ∧ (htmlChangeCell (some (-2))).1 = "negative"
      ∧ htmlChangeCell none = ("neutral", "N/A") :=
  ⟨(((indicator_policy (some 3)).1 3 rfl).1 (by norm_num)).1,
    ((((indicator_policy (some (-2))).1 (-2) rfl).2.1 (by norm_num)).2),
    ((indicator_policy none).2 rfl).2.2⟩

theorem cellEqNum_ne (c : Cell) (a b : ℚ) (hab : a ≠ b)
    (h : cellEqNum c a = true) : cellEqNum c b = false := by
  cases c <;> simp_all [cellEqNum]

theorem locStep_fst (acc : Option ℕ × Option ℕ × Option ℕ) (idx : ℕ) (c : Cell) :
    (locStep acc idx c).1 = if cellEqNum c 2 then some idx else acc.1 := by
  cases h2 : cellEqNum c 2 <;> cases h5 : cellEqNum c 5 <;>
    cases h10 : cellEqNum c 10 <;> simp [locStep, h2, h5, h10]

theorem locStep_snd (acc : Option ℕ × Option ℕ × Option ℕ) (idx : ℕ) (c : Cell) :
    (locStep acc idx c).2.1 = if cellEqNum c 5 then some idx else acc.2.1 := by
  cases h2 : cellEqNum c 2 <;> cases h5 : cellEqNum c 5 <;>
    cases h10 : cellEqNum c 10 <;> simp [locStep, h2, h5, h10]
  all_goals exact absurd (cellEqNum_ne c 2 5 (by norm_num) h2) (by simp [h5])

theorem locStep_thd (acc : Option ℕ × Option ℕ × Option ℕ) (idx : ℕ) (c : Cell) :
    (locStep acc idx c).2.2 = if cellEqNum c 10 then some idx else acc.2.2 := by
  cases h2 : cellEqNum c 2 <;> cases h5 : cellEqNum c 5 <;>
    cases h10 : cellEqNum c 10 <;> simp [locStep, h2, h5, h10]
  · exact absurd (cellEqNum_ne c 5 10 (by norm_num) h5) (by simp [h10])
  · exact absurd (cellEqNum_ne c 2 10 (by norm_num) h2) (by simp [h10])
  · exact absurd (cellEqNum_ne c 2 10 (by norm_num) h2) (by simp [h10])

theorem locAux_spec (cs : List Cell) : ∀ (idx : ℕ)
    (acc : Option ℕ × Option ℕ × Option ℕ),
    locAux idx acc cs =
      ((lastFrom 2 cs idx).elim acc.1 some,
        (lastFrom 5 cs idx).elim acc.2.1 some,
        (lastFrom 10 cs idx).elim acc.2.2 some) := by
  induction cs with
  | nil => intro idx acc; rfl
  | cons c cs ih =>
    intro idx acc
    show locAux (idx + 1) (locStep acc idx c) cs = _
    rw [ih]
    simp only [Prod.mk.injEq]
    refine ⟨?_, ?_, ?_⟩
    · rw [locStep_fst]
      cases hr : lastFrom 2 cs (idx + 1) <;>
        cases hc : cellEqNum c 2 <;> simp [lastFrom, hr, hc]
    · rw [locStep_snd]
      cases hr : lastFrom 5 cs (idx + 1) <;>
        cases hc : cellEqNum c 5 <;> simp [lastFrom, hr, hc]
    · rw [locStep_thd]
      cases hr : lastFrom 10 cs (idx + 1) <;>
        cases hc : cellEqNum c 10 <;> simp [lastFrom, hr, hc]

theorem option_elim_none_some (o : Option ℕ) : o.elim none some = o := by
  cases o <;> rfl

theorem locateCols_eq_lastFrom (row : List Cell) :
    locateCols row = (lastFrom 2 row 0, lastFrom 5 row 0, lastFrom 10 row 0) := by
  rw [locateCols, locAux_spec]
  simp [option_elim_none_some]

theorem lastFrom_eq_getLast (t : ℚ) (cs : List Cell) : ∀ idx : ℕ,
    (((cs.enumFrom idx).filter fun p => cellEqNum p.2 t).map Prod.fst).getLast?
      = lastFrom t cs idx := by
  induction cs with
  | nil => intro idx; rfl
  | cons c cs ih =>
    intro idx
    rw [List.enumFrom_cons, List.filter_cons]
    cases hc : cellEqNum c t with
    | true =>
      simp only [hc, if_true, List.map_cons, List.getLast?_eq_head?_reverse,
        List.reverse_cons, List.head?_append]
      rw [← List.getLast?_eq_head?_reverse, ih (idx + 1)]
      cases hr : lastFrom t cs (idx + 1) <;> simp [lastFrom, hr, hc]
    | false =>
      rw [if_neg (by simp [hc]), ih (idx + 1)]
      cases hr : lastFrom t cs (idx + 1) <;> simp [lastFrom, hr, hc]

theorem lastMatchIdx_eq_lastFrom (row : List Cell) (t : ℚ) :
    lastMatchIdx row t = lastFrom t row 0 := by
  rw [lastMatchIdx, List.enum_eq_enumFrom, lastFrom_eq_getLast]

/-- C5: duplicate maturity columns are resolved last-write-wins — every
component of the locator result is the index of the last matching column in
scan order, not the first. -/
theorem last_match_wins (row : List Cell) :
    locateCols row = (lastMatchIdx row 2, lastMatchIdx row 5, lastMatchIdx row 10) := by
  rw [locateCols_eq_lastFrom, lastMatchIdx_eq_lastFrom, lastMatchIdx_eq_lastFrom,
    lastMatchIdx_eq_lastFrom]

theorem lastFrom_eq_none (t : ℚ) (cs : List Cell) : ∀ idx : ℕ,
    (∀ j, j < cs.length → cellEqNum (cellAt cs j) t = false) →
    lastFrom t cs idx = none := by
  induction cs with
  | nil => intro idx _; rfl
  | cons c cs ih =>
    intro idx h
    have hrec : lastFrom t cs (idx + 1) = none :=
      ih (idx + 1) fun j hj => h (j + 1) (Nat.succ_lt_succ hj)
    have hc : cellEqNum c t = false := h 0 (Nat.succ_pos _)
    simp [lastFrom, hrec, hc]

theorem lastFrom_unique (t : ℚ) (cs : List Cell) : ∀ (idx i : ℕ),
    i < cs.length → cellEqNum (cellAt cs i) t = true →
    (∀ j, j < cs.length → cellEqNum (cellAt cs j) t = true → j = i) →
    lastFrom t cs idx = some (idx + i) := by
  induction cs with
  | nil => intro idx i hi _ _; exact absurd hi (Nat.not_lt_zero i)
  | cons c cs ih =>
    intro idx i hi hm hu
    cases i with
    | zero =>
      have hrec : lastFrom t cs (idx + 1) = none := by
        apply lastFrom_eq_none
        intro j hj
        cases hc : cellEqNum (cellAt cs j) t with
        | false => rfl
        | true => exact absurd (hu (j + 1) (Nat.succ_lt_succ hj) hc) (Nat.succ_ne_zero j)
      have hc : cellEqNum c t = true := hm
      simp [lastFrom, hrec, hc]
    | succ i' =>
      have hcfalse : cellEqNum c t = false := by
        cases hc : cellEqNum c t with
        | false => rfl
        | true => exact absurd (hu 0 (Nat.succ_pos _) hc) (Nat.succ_ne_zero i').symm
      have hrec : lastFrom t cs (idx + 1) = some ((idx + 1) + i') :=
        ih (idx + 1) i' (Nat.lt_of_succ_lt_succ hi) hm
          fun j hj hmj => Nat.succ_injective (hu (j + 1) (Nat.succ_lt_succ hj) hmj)
      have : (idx + 1) + i' = idx + (i' + 1) := by omega
      simp [lastFrom, hrec, this]

/-- C2 (amended): a header row with exactly one cell equal to each of 2, 5
and 10 resolves to exactly those column indices; if any of the three is
absent the parse fails with the single fixed error message, which names all
three tenors regardless of which of them were actually unresolved. -/
theorem locator_contract (row : List Cell) (rows : List (List Cell)) :
    (∀ i j k, uniqueMatchAt row 2 i → uniqueMatchAt row 5 j →
      uniqueMatchAt row 10 k → locateCols row = (some i, some j, some k))
    ∧ ((locateCols row).1 = none ∨ (locateCols row).2.1 = none
        ∨ (locateCols row).2.2 = none →
      parse_ois_sheet row rows = .error columnErrorMsg)
    ∧ strContains columnErrorMsg "2yr" = true
    ∧ strContains columnErrorMsg "5yr" = true
    ∧ strContains columnErrorMsg "10yr" = true := by
  refine ⟨?_, ?_, by decide, by decide, by decide⟩
  · intro i j k h2 h5 h10
    obtain ⟨hi2, hm2, hu2⟩ := h2
    obtain ⟨hi5, hm5, hu5⟩ := h5
    obtain ⟨hi10, hm10, hu10⟩ := h10
    rw [locateCols_eq_lastFrom,
      lastFrom_unique 2 row 0 i hi2 hm2 hu2,
      lastFrom_unique 5 row 0 j hi5 hm5 hu5,
      lastFrom_unique 10 row 0 k hi10 hm10 hu10]
    simp [Nat.zero_add]
  · intro h
    rw [parse_ois_sheet]
    rcases hlc : locateCols row with ⟨o1, o2, o3⟩
    rw [hlc] at h
    cases o1 with
    | none => rfl
    | some c2 =>
      cases o2 with
      | none => rfl
      | some c5 =>
        cases o3 with
        | none => rfl
        | some c10 => simp at h

/-- The claim as frozen is false at this input: with 5yr missing from the
header, the raised message still mentions the resolved targets 2yr and
10yr, so it does not name (only) the unresolved target. -/
theorem locator_contract_counterexample :
    parse_ois_sheet [Cell.num 2, Cell.num 10] [] = .error columnErrorMsg
      ∧ locateCols [Cell.num 2, Cell.num 10] = (some 0, none, some 1)
      ∧ ¬ msgNamesExactlyUnresolved columnErrorMsg
          (locateCols [Cell.num 2, Cell.num 10]) := by
  refine ⟨by decide, by decide, ?_⟩
  intro h
  have h2 := h.1.mp (by decide)
  exact absurd h2 (by decide)

theorem locator_contract_witness :
    locateCols sampleHeader = (some 3, some 4, some 5)
      ∧ parse_ois_sheet [Cell.num (mkRat 1 2)] [] = .error columnErrorMsg :=
  ⟨(locator_contract sampleHeader []).1 3 4 5 (by decide) (by decide) (by decide),
    (locator_contract [Cell.num (mkRat 1 2)] []).2.1 (Or.inl (by decide))⟩

theorem le_foldr_max (l : List ℕ) (x : ℕ) (h : x ∈ l) : x ≤ l.foldr max 0 := by
  induction l with
  | nil => cases h
  | cons a t ih =>
    rcases List.mem_cons.mp h with rfl | hmem
    · exact le_max_left _ _
    · exact le_trans (ih hmem) (le_max_right _ _)

theorem foldr_max_le (l : List ℕ) (m : ℕ) (h : ∀ x ∈ l, x ≤ m) :
    l.foldr max 0 ≤ m := by
  induction l with
  | nil => exact Nat.zero_le m
  | cons a t ih =>
    exact max_le (h a (List.mem_cons_self a t))
      (ih fun x hx => h x (List.mem_cons_of_mem a hx))

theorem foldr_max_eq (l : List ℕ) (m : ℕ) (hm : m ∈ l) (h : ∀ x ∈ l, x ≤ m) :
    l.foldr max 0 = m :=
  le_antisymm (foldr_max_le l m h) (le_foldr_max l m hm)

theorem filter_orderedInsert (k : ℕ) (x : ObservationRow)
    (L : List ObservationRow) :
    (List.orderedInsert obsGE x L).filter (fun o => o.date.key == k)
      = if x.date.key = k then x :: L.filter (fun o => o.date.key == k)
        else L.filter (fun o => o.date.key == k) := by
  induction L with
  | nil =>
    by_cases hx : x.date.key = k <;>
      simp [List.orderedInsert, List.filter_cons, hx]
  | cons y L ih =>
    rw [List.orderedInsert]
    by_cases hr : obsGE x y
    · rw [if_pos hr]
      by_cases hx : x.date.key = k <;> simp [List.filter_cons, hx]
    · rw [if_neg hr]
      have hygt : x.date.key < y.date.key := lt_of_not_le hr
      by_cases hx : x.date.key = k
      · have hy : (y.date.key == k) = false := by
          simp only [beq_eq_false_iff_ne]
          omega
        rw [List.filter_cons, hy, if_pos hx, ih, if_pos hx, List.filter_cons, hy]
        simp
      · rw [List.filter_cons, ih, if_neg hx, if_neg hx, List.filter_cons]

theorem sortByDateDesc_filter (l : List ObservationRow) (k : ℕ) :
    (sortByDateDesc l).filter (fun o => o.date.key == k)
      = l.filter (fun o => o.date.key == k) := by
  induction l with
  | nil => rfl
  | cons x l ih =>
    have hstep : sortByDateDesc (x :: l)
        = List.orderedInsert obsGE x (sortByDateDesc l) := rfl
    rw [hstep, filter_orderedInsert]
    by_cases hx : x.date.key = k
    · rw [if_pos hx, ih, List.filter_cons, if_pos (by simp [hx])]
    · rw [if_neg hx, ih, List.filter_cons, if_neg (by simp [hx])]

theorem head_key_eq_specLatest (l : List ObservationRow) (a : ObservationRow)
    (rest : List ObservationRow) (h : sortByDateDesc l = a :: rest) :
    a.date.key = specLatestKey l := by
  have hperm : List.Perm (a :: rest) l := h ▸ List.perm_insertionSort obsGE l
  have hsort : List.Sorted obsGE (a :: rest) := h ▸ List.sorted_insertionSort obsGE l
  refine (foldr_max_eq _ _ ?_ ?_).symm
  · exact List.mem_map_of_mem _ (hperm.subset (List.mem_cons_self a rest))
  · intro x hx
    obtain ⟨o, ho, rfl⟩ := List.mem_map.mp hx
    rcases List.mem_cons.mp (hperm.mem_iff.mpr ho) with rfl | hmem
    · exact le_refl _
    · exact (List.sorted_cons.mp hsort).1 o hmem

theorem second_key_eq_specPrevious (l : List ObservationRow)
    (a b : ObservationRow) (rest : List ObservationRow)
    (h : sortByDateDesc l = a :: b :: rest) :
    b.date.key = specPreviousKey l := by
  have hperm : List.Perm (a :: b :: rest) l := h ▸ List.perm_insertionSort obsGE l
  have hsort : List.Sorted obsGE (a :: b :: rest) :=
    h ▸ List.sorted_insertionSort obsGE l
  have hlatest : specLatestKey l = a.date.key :=
    (head_key_eq_specLatest l a (b :: rest) h).symm
  have hpermmap : List.Perm (l.map fun o => o.date.key)
      (a.date.key :: b.date.key :: rest.map fun o => o.date.key) :=
    hperm.symm.map fun o => o.date.key
  have hperme : List.Perm ((l.map fun o => o.date.key).erase a.date.key)
      (b.date.key :: rest.map fun o => o.date.key) := by
    have := hpermmap.erase a.date.key
    rwa [List.erase_cons_head] at this
  rw [specPreviousKey, hlatest]
  refine (foldr_max_eq _ _ ?_ ?_).symm
  · exact hperme.mem_iff.mpr (List.mem_cons_self _ _)
  · intro x hx
    rcases List.mem_cons.mp (hperme.mem_iff.mp hx) with rfl | hmem
    · exact le_refl _
    · obtain ⟨o, ho, rfl⟩ := List.mem_map.mp hmem
      exact (List.sorted_cons.mp (List.sorted_cons.mp hsort).2).1 o ho

/-- C3: on success the snapshot's latest date is the maximum observation
date, its previous date is the second-maximum (the maximum after removing
one occurrence of the maximum), and the descending sort is stable: for any
date key, the rows carrying that key appear in their original row order. -/
theorem latest_previous_selection (mRow : List Cell) (rows : List (List Cell))
    (c2 c5 c10 : ℕ) (r : OisResult) (k : ℕ)
    (hloc : locateCols mRow = (some c2, some c5, some c10))
    (hok : parse_ois_sheet mRow rows = .ok r) :
    r.latest_date.key = specLatestKey (extractObservations c2 c5 c10 rows)
      ∧ r.previous_date.key = specPreviousKey (extractObservations c2 c5 c10 rows)
      ∧ (sortByDateDesc (extractObservations c2 c5 c10 rows)).filter
            (fun o => o.date.key == k)
          = (extractObservations c2 c5 c10 rows).filter
            (fun o => o.date.key == k) := by
  rw [parse_ois_sheet] at hok
  simp only [hloc] at hok
  split at hok
  · rename_i a b rest heq
    have hr : buildResult a b = r := by simpa using hok
    subst hr
    exact ⟨head_key_eq_specLatest _ a (b :: rest) heq,
      second_key_eq_specPrevious _ a b rest heq, sortByDateDesc_filter _ k⟩
  · simp at hok

theorem latest_previous_selection_witness :
    sampleSnapshot.latest_date.key
        = specLatestKey (extractObservations 3 4 5 sampleRows)
      ∧ sampleSnapshot.previous_date.key
        = specPreviousKey (extractObservations 3 4 5 sampleRows)
      ∧ (sortByDateDesc (extractObservations 3 4 5 sampleRows)).filter
            (fun o => o.date.key == sampleD1.key)
          = (extractObservations 3 4 5 sampleRows).filter
            (fun o => o.date.key == sampleD1.key) :=
  latest_previous_selection sampleHeader sampleRows 3 4 5 sampleSnapshot
    sampleD1.key (by decide) (by decide)

theorem extractObservations_eq (c2 c5 c10 : ℕ) (rows : List (List Cell)) :
    extractObservations c2 c5 c10 rows
      = (rows.filter fun row => isDateCell row.head?).map (obsOfRow c2 c5 c10) := by
  induction rows with
  | nil => rfl
  | cons row rest ih =>
    rw [extractObservations, List.filterMap_cons, List.filter_cons]
    rcases row with _ | ⟨c, rcs⟩
    · simpa [isDateCell] using ih
    · cases c <;> simp [isDateCell, obsOfRow, dateOf, List.headD] <;>
        exact ih

/-- C4: a data row is kept as an observation exactly when its first cell is
a date (all other rows are skipped without error), and the parse fails with
the insufficient-data error precisely when fewer than two such rows exist. -/
theorem extractor_contract (c2 c5 c10 : ℕ) (mRow : List Cell)
    (rows : List (List Cell))
    (hloc : locateCols mRow = (some c2, some c5, some c10)) :
    extractObservations c2 c5 c10 rows
        = (rows.filter fun row => isDateCell row.head?).map (obsOfRow c2 c5 c10)
      ∧ (parse_ois_sheet mRow rows = .error insufficientErrorMsg
          ↔ (rows.filter fun row => isDateCell row.head?).length < 2) := by
  refine ⟨extractObservations_eq c2 c5 c10 rows, ?_⟩
  have hlen : (sortByDateDesc (extractObservations c2 c5 c10 rows)).length
      = (rows.filter fun row => isDateCell row.head?).length := by
    rw [sortByDateDesc, (List.perm_insertionSort obsGE _).length_eq,
      extractObservations_eq, List.length_map]
  rw [parse_ois_sheet]
  simp only [hloc]
  split
  · rename_i a b tail heq
    rw [heq] at hlen
    simp only [List.length_cons] at hlen
    constructor
    · intro hcontra
      exact absurd hcontra (by simp)
    · intro hlt
      omega
  · rename_i x heq
    constructor
    · intro _
      rcases hs : sortByDateDesc (extractObservations c2 c5 c10 rows)
        with _ | ⟨a, _ | ⟨b, tail⟩⟩
      · rw [hs] at hlen
        simp at hlen
        omega
      · rw [hs] at hlen
        simp at hlen
        omega
      · exact (heq a b tail hs).elim
    · intro _
      rfl

theorem extractor_contract_witness :
    extractObservations 3 4 5 sampleRows
        = (sampleRows.filter fun row => isDateCell row.head?).map (obsOfRow 3 4 5)
      ∧ (parse_ois_sheet sampleHeader sampleRows = .error insufficientErrorMsg
          ↔ (sampleRows.filter fun row => isDateCell row.head?).length < 2) :=
  extractor_contract 3 4 5 sampleHeader sampleRows (by decide)

theorem summaryLine_error_of_absent (t : String) (v : RateComparison)
    (h : v.current = none ∨ v.previous = none) :
    summaryLine t v = .error typeErrorMsg := by
  rcases h with h | h
  · rw [summaryLine, h]
    rfl
  · rw [summaryLine, h]
    rcases hc : v.current with _ | q <;> rfl

theorem summaryLine_cases (t : String) (v : RateComparison) :
    (∃ out, summaryLine t v = .ok out) ∨ summaryLine t v = .error typeErrorMsg := by
  rcases hc : v.current with _ | q
  · exact Or.inr (summaryLine_error_of_absent t v (Or.inl hc))
  · rcases hp : v.previous with _ | q'
    · exact Or.inr (summaryLine_error_of_absent t v (Or.inr hp))
    · left
      rw [summaryLine, hc, hp]
      exact ⟨_, rfl⟩

theorem htmlRow_error_of_absent (t : String) (v : RateComparison)
    (h : v.current = none ∨ v.previous = none) :
    htmlRow t v = .error typeErrorMsg := by
  rcases h with h | h
  · rw [htmlRow, h]
    rfl
  · rw [htmlRow, h]
    rcases hc : v.current with _ | q <;> rfl

theorem htmlRow_cases (t : String) (v : RateComparison) :
    (∃ out, htmlRow t v = .ok out) ∨ htmlRow t v = .error typeErrorMsg := by
  rcases hc : v.current with _ | q
  · exact Or.inr (htmlRow_error_of_absent t v (Or.inl hc))
  · rcases hp : v.previous with _ | q'
    · exact Or.inr (htmlRow_error_of_absent t v (Or.inr hp))
    · left
      rw [htmlRow, hc, hp]
      exact ⟨_, rfl⟩

theorem format_summary_error_of_absent (s : OisResult) (now : PyDateTime)
    (h : s.rates_2yr.current = none ∨ s.rates_2yr.previous = none
      ∨ s.rates_5yr.current = none ∨ s.rates_5yr.previous = none
      ∨ s.rates_10yr.current = none ∨ s.rates_10yr.previous = none) :
    format_summary s now = .error typeErrorMsg := by
  rcases h with h | h | h | h | h | h
  · rw [format_summary, summaryLine_error_of_absent "2yr" _ (Or.inl h)]
    rfl
  · rw [format_summary, summaryLine_error_of_absent "2yr" _ (Or.inr h)]
    rfl
  · rcases summaryLine_cases "2yr" s.rates_2yr with ⟨o2, ho2⟩ | he2
    · rw [format_summary, ho2, summaryLine_error_of_absent "5yr" _ (Or.inl h)]
      rfl
    · rw [format_summary, he2]
      rfl
  · rcases summaryLine_cases "2yr" s.rates_2yr with ⟨o2, ho2⟩ | he2
    · rw [format_summary, ho2, summaryLine_error_of_absent "5yr" _ (Or.inr h)]
      rfl
    · rw [format_summary, he2]
      rfl
  · rcases summaryLine_cases "2yr" s.rates_2yr with ⟨o2, ho2⟩ | he2
    · rcases summaryLine_cases "5yr" s.rates_5yr with ⟨o5, ho5⟩ | he5
      · rw [format_summary, ho2, ho5,
          summaryLine_error_of_absent "10yr" _ (Or.inl h)]
        rfl
      · rw [format_summary, ho2, he5]
        rfl
    · rw [format_summary, he2]
      rfl
  · rcases summaryLine_cases "2yr" s.rates_2yr with ⟨o2, ho2⟩ | he2
    · rcases summaryLine_cases "5yr" s.rates_5yr with ⟨o5, ho5⟩ | he5
      · rw [format_summary, ho2, ho5,
          summaryLine_error_of_absent "10yr" _ (Or.inr h)]
        rfl
      · rw [format_summary, ho2, he5]
        rfl
    · rw [format_summary, he2]
      rfl

theorem create_ois_html_email_error_of_absent (s : OisResult)
    (h : s.rates_2yr.current = none ∨ s.rates_2yr.previous = none
      ∨ s.rates_5yr.current = none ∨ s.rates_5yr.previous = none
      ∨ s.rates_10yr.current = none ∨ s.rates_10yr.previous = none) :
    create_ois_html_email s = .error typeErrorMsg := by
  rcases h with h | h | h | h | h | h
  · rw [create_ois_html_email, htmlRow_error_of_absent "2yr" _ (Or.inl h)]
    rfl
  · rw [create_ois_html_email, htmlRow_error_of_absent "2yr" _ (Or.inr h)]
    rfl
  · rcases htmlRow_cases "2yr" s.rates_2yr with ⟨o2, ho2⟩ | he2
    · rw [create_ois_html_email, ho2, htmlRow_error_of_absent "5yr" _ (Or.inl h)]
      rfl
    · rw [create_ois_html_email, he2]
      rfl
  · rcases htmlRow_cases "2yr" s.rates_2yr with ⟨o2, ho2⟩ | he2
    · rw [create_ois_html_email, ho2, htmlRow_error_of_absent "5yr" _ (Or.inr h)]
      rfl
    · rw [create_ois_html_email, he2]
      rfl
  · rcases htmlRow_cases "2yr" s.rates_2yr with ⟨o2, ho2⟩ | he2
    · rcases htmlRow_cases "5yr" s.rates_5yr with ⟨o5, ho5⟩ | he5
      · rw [create_ois_html_email, ho2, ho5,
          htmlRow_error_of_absent "10yr" _ (Or.inl h)]
        rfl
      · rw [create_ois_html_email, ho2, he5]
        rfl
    · rw [create_ois_html_email, he2]
      rfl
  · rcases htmlRow_cases "2yr" s.rates_2yr with ⟨o2, ho2⟩ | he2
    · rcases htmlRow_cases "5yr" s.rates_5yr with ⟨o5, ho5⟩ | he5
      · rw [create_ois_html_email, ho2, ho5,
          htmlRow_error_of_absent "10yr" _ (Or.inr h)]
        rfl
      · rw [create_ois_html_email, ho2, he5]
        rfl
    · rw [create_ois_html_email, he2]
      rfl

/-- C10: whenever some tenor's current or previous rate is absent, both the
plain-text and the HTML formatter raise `TypeError` at the numeric format
specifier instead of rendering; consequently a successfully rendered output
(where alone the "N/A" path can appear) requires every rate of every tenor
to be present, with only changes possibly absent. -/
theorem absent_rate_type_error (s : OisResult) (now : PyDateTime) :
    ((s.rates_2yr.current = none ∨ s.rates_2yr.previous = none
        ∨ s.rates_5yr.current = none ∨ s.rates_5yr.previous = none
        ∨ s.rates_10yr.current = none ∨ s.rates_10yr.previous = none) →
      format_summary s now = .error typeErrorMsg
        ∧ create_ois_html_email s = .error typeErrorMsg)
    ∧ (∀ out, format_summary s now = .ok out →
        s.rates_2yr.current ≠ none ∧ s.rates_2yr.previous ≠ none
          ∧ s.rates_5yr.current ≠ none ∧ s.rates_5yr.previous ≠ none
          ∧ s.rates_10yr.current ≠ none ∧ s.rates_10yr.previous ≠ none)
    ∧ (∀ out, create_ois_html_email s = .ok out →
        s.rates_2yr.current ≠ none ∧ s.rates_2yr.previous ≠ none
          ∧ s.rates_5yr.current ≠ none ∧ s.rates_5yr.previous ≠ none
          ∧ s.rates_10yr.current ≠ none ∧ s.rates_10yr.previous ≠ none) := by
  refine ⟨fun h => ⟨format_summary_error_of_absent s now h,
      create_ois_html_email_error_of_absent s h⟩, ?_, ?_⟩
  · intro out hok
    refine ⟨fun hn => ?_, fun hn => ?_, fun hn => ?_, fun hn => ?_,
      fun hn => ?_, fun hn => ?_⟩
    · rw [format_summary_error_of_absent s now (Or.inl hn)] at hok
      exact Except.noConfusion hok
    · rw [format_summary_error_of_absent s now (Or.inr (Or.inl hn))] at hok
      exact Except.noConfusion hok
    · rw [format_summary_error_of_absent s now
        (Or.inr (Or.inr (Or.inl hn)))] at hok
      exact Except.noConfusion hok
    · rw [format_summary_error_of_absent s now
        (Or.inr (Or.inr (Or.inr (Or.inl hn))))] at hok
      exact Except.noConfusion hok
    · rw [format_summary_error_of_absent s now
        (Or.inr (Or.inr (Or.inr (Or.inr (Or.inl hn)))))] at hok
      exact Except.noConfusion hok
    · rw [format_summary_error_of_absent s now
        (Or.inr (Or.inr (Or.inr (Or.inr (Or.inr hn)))))] at hok
      exact Except.noConfusion hok
  · intro out hok
    refine ⟨fun hn => ?_, fun hn => ?_, fun hn => ?_, fun hn => ?_,
      fun hn => ?_, fun hn => ?_⟩
    · rw [create_ois_html_email_error_of_absent s (Or.inl hn)] at hok
      exact Except.noConfusion hok
    · rw [create_ois_html_email_error_of_absent s (Or.inr (Or.inl hn))] at hok
      exact Except.noConfusion hok
    · rw [create_ois_html_email_error_of_absent s
        (Or.inr (Or.inr (Or.inl hn)))] at hok
      exact Except.noConfusion hok
    · rw [create_ois_html_email_error_of_absent s
        (Or.inr (Or.inr (Or.inr (Or.inl hn))))] at hok
      exact Except.noConfusion hok
    · rw [create_ois_html_email_error_of_absent s
        (Or.inr (Or.inr (Or.inr (Or.inr (Or.inl hn)))))] at hok
      exact Except.noConfusion hok
    · rw [create_ois_html_email_error_of_absent s
        (Or.inr (Or.inr (Or.inr (Or.inr (Or.inr hn)))))] at hok
      exact Except.noConfusion hok

theorem absent_rate_type_error_witness :
    format_summary sampleSnapshotAbsent sampleD1 = .error typeErrorMsg
      ∧ create_ois_html_email sampleSnapshotAbsent = .error typeErrorMsg :=
  (absent_rate_type_error sampleSnapshotAbsent sampleD1).1
    (Or.inr (Or.inr (Or.inr (Or.inl rfl))))

set_option maxRecDepth 100000 in
theorem format_summary_clock_dependent :
    exceptOut (format_summary sampleSnapshot ⟨2024, 6, 10, 7, 0, 0⟩)
      ≠ exceptOut (format_summary sampleSnapshot ⟨2024, 6, 10, 8, 0, 0⟩) := by
  decide

/-- The claim as frozen is false: the plain-text summary is not a pure
function of the snapshot — its `Fetched at` footer reads the system clock
(`datetime.now()`), so the same snapshot rendered at 07:00 and at 08:00
yields two different strings. -/
theorem formatter_purity_counterexample :
    exceptOut (format_summary sampleSnapshot ⟨2024, 6, 10, 7, 0, 0⟩)
      ≠ exceptOut (format_summary sampleSnapshot ⟨2024, 6, 10, 8, 0, 0⟩) :=
  format_summary_clock_dependent

/-- C6 (amended): the HTML formatter is a pure function of the snapshot —
two invocations on the same snapshot yield the identical string — while the
plain-text summary additionally depends on the current clock reading, and
genuinely differs across clock readings on the same snapshot. -/
theorem formatter_purity (data : OisResult) :
    create_ois_html_email data = create_ois_html_email data
      ∧ ∃ (s : OisResult) (t₁ t₂ : PyDateTime),
          exceptOut (format_summary s t₁) ≠ exceptOut (format_summary s t₂) :=
  ⟨rfl, sampleSnapshot, ⟨2024, 6, 10, 7, 0, 0⟩, ⟨2024, 6, 10, 8, 0, 0⟩,
    format_summary_clock_dependent⟩

/-- The claim as frozen is false: with the email configuration unset (empty
SMTP user), a successful fetch leads to a run that exits with status 0 yet
makes zero notification attempts, not exactly one. -/
theorem agent_policy_counterexample :
    agentMain (some sampleSnapshot, none) "" "user@example.com" sampleD1 true
      = ⟨0, 0⟩ := by
  decide

/-- C8 (amended): on any core failure (fetch/parse error, or no data) no
notification is attempted and the run exits non-zero; on a run that exits
successfully, exactly one notification attempt was made if and only if the
email configuration (SMTP user and recipient) is non-empty — an
unconfigured run exits successfully with no attempt. -/
theorem agent_notification_policy (fr : Option OisResult × Option String)
    (su te : String) (now : PyDateTime) (ss : Bool) :
    ((fr.2 ≠ none ∨ fr.1 = none) → agentMain fr su te now ss = ⟨1, 0⟩)
    ∧ ((agentMain fr su te now ss).exitCode = 0 →
        ((agentMain fr su te now ss).notifyAttempts = 1 ↔ su ≠ "" ∧ te ≠ "")) := by
  rcases fr with ⟨od, oe⟩
  rcases oe with _ | e
  · rcases od with _ | data
    · exact ⟨fun _ => rfl, fun h => absurd h (by simp [agentMain])⟩
    · refine ⟨?_, ?_⟩
      · rintro (h | h)
        · exact absurd rfl h
        · exact Option.noConfusion h
      · rcases hf : format_summary data now with e' | o
        · have hrun : agentMain (some data, none) su te now ss = ⟨1, 0⟩ := by
            simp [agentMain, hf]
          rw [hrun]
          intro h
          exact absurd h (by simp)
        · by_cases hsu : su = ""
          · have hrun : agentMain (some data, none) su te now ss = ⟨0, 0⟩ := by
              simp [agentMain, hf, hsu]
            rw [hrun]
            intro _
            constructor
            · intro h1
              exact absurd h1 (by simp)
            · rintro ⟨h1, _⟩
              exact absurd hsu h1
          · by_cases hte : te = ""
            · have hrun : agentMain (some data, none) su te now ss = ⟨0, 0⟩ := by
                simp [agentMain, hf, hsu, hte]
              rw [hrun]
              intro _
              constructor
              · intro h1
                exact absurd h1 (by simp)
              · rintro ⟨_, h2⟩
                exact absurd hte h2
            · rcases hh : create_ois_html_email data with e' | o'
              · have hrun : agentMain (some data, none) su te now ss = ⟨1, 0⟩ := by
                  simp [agentMain, hf, hsu, hte, hh]
                rw [hrun]
                intro h
                exact absurd h (by simp)
              · cases ss
                · have hrun : agentMain (some data, none) su te now false = ⟨1, 1⟩ := by
                    simp [agentMain, hf, hsu, hte, hh]
                  rw [hrun]
                  intro h
                  exact absurd h (by simp)
                · have hrun : agentMain (some data, none) su te now true = ⟨0, 1⟩ := by
                    simp [agentMain, hf, hsu, hte, hh]
                  rw [hrun]
                  intro _
                  simp [hsu, hte]
  · refine ⟨fun _ => ?_, fun h => absurd h ?_⟩ <;>
      rcases od with _ | d <;> simp [agentMain]

theorem agent_notification_policy_witness :
    agentMain (none, some "Network error: timeout") "u" "t" sampleD1 true = ⟨1, 0⟩
      ∧ ((agentMain (some sampleSnapshot, none) "u" "t" sampleD1 true).notifyAttempts = 1
          ↔ ("u" : String) ≠ "" ∧ ("t" : String) ≠ "") :=
  ⟨(agent_notification_policy (none, some "Network error: timeout") "u" "t"
      sampleD1 true).1 (Or.inl (by simp)),
    (agent_notification_policy (some sampleSnapshot, none) "u" "t"
      sampleD1 true).2 (by decide)⟩
